import Mathlib

/-!
Shallow embedding of the S1 module core functions (src/s1.c).

Modelling conventions:
* Every bus interaction is recorded as an `S1Event` in a transaction trace,
  in the order the C code issues it: PMIC register reads/writes over I2C
  (`pmic_read_reg` / `pmic_write_reg`), SPI transfers (`flash_tx_rx`, recorded
  with the transmitted bytes and the requested receive length), and the
  microsecond busy-wait delays (`NRFX_DELAY_US`).
* The external hardware is a passive oracle `Hw`: `pmicReg r` is the byte the
  PMIC returns when register `r` is read, and `spiResp tx i` is byte `i` of
  the response the flash device gives to an SPI transfer that transmitted
  `tx`.  Received bytes land in `uint8_t` buffers, hence the `% 256` at the
  read boundary.
* C `float` arithmetic on voltages is embedded over `ℚ`; the decimal literals
  0.8, 3.46, 5.5, 0.05, 0.025 are exact rationals.  The C conversion
  `uint8_t v = expr;` truncates toward zero; for the values reachable here the
  operand is nonnegative and below 256 (the range guards bound it by
  (5.5-0.8)/0.05 = 94 resp. (3.46-0.8)/0.025 = 106.4), so it is `Int.floor`
  followed by `Int.toNat`.
* Functions returning `s1_error_t` return the error code paired with the
  transaction trace of the call; `void` functions return just the trace.
-/

/-- One bus-level event issued by the S1 core: an I2C PMIC register read, an
I2C PMIC register write, an SPI transfer (transmitted bytes plus requested
receive length) or a busy-wait delay in microseconds. -/
inductive S1Event where
  | i2cRead (reg : Nat)
  | i2cWrite (reg : Nat) (val : Nat)
  | spiXfer (tx : List Nat) (rxLen : Nat)
  | delayUs (us : Nat)
  deriving DecidableEq, BEq, Repr

/-- A transaction trace: the bus events of one call, in issue order. -/
abbrev S1Trace := List S1Event

/-- Error codes of `s1_error_t` used by the embedded functions. -/
inductive S1Error where
  | S1_SUCCESS
  | S1_INVALID_SETTING
  | S1_FLASH_ERROR
  | S1_PMIC_ERROR
  deriving DecidableEq, Repr

/-- The external hardware as a passive oracle: `pmicReg r` is the byte a PMIC
register read of `r` returns, `spiResp tx i` is byte `i` of the flash
device's response to an SPI transfer that transmitted `tx`. -/
structure Hw where
  pmicReg : Nat → Nat
  spiResp : List Nat → Nat → Nat

/-- `pmic_read_reg`: the byte returned by an I2C register read (a `uint8_t`,
hence `% 256`). -/
def pmic_read_reg (hw : Hw) (reg : Nat) : Nat :=
  hw.pmicReg reg % 256

/-- Byte `i` of the receive buffer after an SPI transfer that transmitted
`tx` (a `uint8_t`, hence `% 256`). -/
def spi_rx (hw : Hw) (tx : List Nat) (i : Nat) : Nat :=
  hw.spiResp tx i % 256

/-- The I2C events issued while evaluating the guard
`voltage > 3.46 && (pmic_read_reg(0x39) & 0x08)` of `s1_pmic_set_vaux`:
thanks to C short-circuit evaluation the mode register 0x39 is read exactly
when `voltage > 3.46`. -/
def modeReadTrace (voltage : ℚ) : S1Trace :=
  if voltage > 3.46 then [S1Event.i2cRead 0x39] else []

/-- The DAC code `uint8_t voltage_setting = (voltage - 0.8) / 0.05;` of
`s1_pmic_set_vaux`: C float-to-uint8_t truncation of a nonnegative in-range
value, i.e. the floor. -/
def vauxSetting (voltage : ℚ) : Nat :=
  (⌊(voltage - 0.8) / 0.05⌋).toNat

/-- The DAC code `uint8_t voltage_setting = (voltage - 0.8) / 0.025;` of
`s1_pmic_set_vio`. -/
def vioSetting (voltage : ℚ) : Nat :=
  (⌊(voltage - 0.8) / 0.025⌋).toNat

/-- `s1_pmic_set_vaux` (src/s1.c lines 94-127): range-check the requested
voltage, refuse a voltage above 3.46 V when LDO0 reports load-switch mode
(bit 3 of register 0x39), shut the SSB2 down on 0 V, otherwise write the DAC
code to register 0x2D and the enable configuration 0x0E to register 0x2E. -/
def s1_pmic_set_vaux (hw : Hw) (voltage : ℚ) : S1Error × S1Trace :=
  if voltage < 0.8 ∨ voltage > 5.5 then
    (S1Error.S1_INVALID_SETTING, [])
  else if voltage > 3.46 ∧ pmic_read_reg hw 0x39 &&& 0x08 ≠ 0 then
    (S1Error.S1_INVALID_SETTING, modeReadTrace voltage)
  else if voltage = 0.0 then
    (S1Error.S1_SUCCESS, modeReadTrace voltage ++ [S1Event.i2cWrite 0x2E 0x0C])
  else
    (S1Error.S1_SUCCESS, modeReadTrace voltage ++
      [S1Event.i2cWrite 0x2D (vauxSetting voltage), S1Event.i2cWrite 0x2E 0x0E])

/-- `s1_pmic_set_vio` (src/s1.c lines 129-156): range-check the requested
voltage against the FPGA-protecting 3.46 V bound, shut the LDO down on 0 V,
otherwise write the DAC code to register 0x38 and the enable configuration
0x0E to register 0x39. -/
def s1_pmic_set_vio (voltage : ℚ) : S1Error × S1Trace :=
  if voltage < 0.8 ∨ voltage > 3.46 then
    (S1Error.S1_INVALID_SETTING, [])
  else if voltage = 0.0 then
    (S1Error.S1_SUCCESS, [S1Event.i2cWrite 0x39 0x0C])
  else
    (S1Error.S1_SUCCESS,
      [S1Event.i2cWrite 0x38 (vioSetting voltage), S1Event.i2cWrite 0x39 0x0E])

/-- `s1_pimc_fpga_vcore` (src/s1.c lines 158-179): always first pin SSB1 to
1.2 V (register 0x2B := 0x08); when enabling, write 0x7E to the SSB1 control
register 0x2C; when disabling, first shut LDO0 (Vio) down (register
0x39 := 0x0C) and then disable SSB1 (register 0x2C := 0x7C). -/
def s1_pimc_fpga_vcore (enable : Bool) : S1Trace :=
  S1Event.i2cWrite 0x2B 0x08 ::
    (if enable then
      [S1Event.i2cWrite 0x2C 0x7E]
    else
      [S1Event.i2cWrite 0x39 0x0C, S1Event.i2cWrite 0x2C 0x7C])

/-- `s1_flash_wakeup` (src/s1.c lines 181-206): 4-byte wake command 0xAB,
3 µs delay, the two single-byte reset transfers 0x66 and 0x99, 30 µs delay,
then the capacity identification transfer (send 0x9F, receive 4 bytes);
fails with `S1_FLASH_ERROR` unless the 4th received byte (`cap_id_res[3]`)
is 0x16. -/
def s1_flash_wakeup (hw : Hw) : S1Error × S1Trace :=
  let t : S1Trace :=
    [S1Event.spiXfer [0xAB, 0x00, 0x00, 0x00] 0, S1Event.delayUs 3,
     S1Event.spiXfer [0x66] 0, S1Event.spiXfer [0x99] 0, S1Event.delayUs 30,
     S1Event.spiXfer [0x9F] 4]
  if spi_rx hw [0x9F] 3 ≠ 0x16 then
    (S1Error.S1_FLASH_ERROR, t)
  else
    (S1Error.S1_SUCCESS, t)

/-- `s1_flash_erase_all` (src/s1.c lines 208-214): the write-enable opcode
0x06 and the erase opcode 0x60, as two separate single-byte transfers. -/
def s1_flash_erase_all : S1Trace :=
  [S1Event.spiXfer [0x06] 0, S1Event.spiXfer [0x60] 0]

/-- `s1_flash_is_busy` (src/s1.c lines 216-233): send opcode 0x05, receive
2 bytes; busy iff bit 0 of the 2nd received byte (`status_res[1]`) is set. -/
def s1_flash_is_busy (hw : Hw) : Bool × S1Trace :=
  (if spi_rx hw [0x05] 1 &&& 0x01 = 0 then false else true,
   [S1Event.spiXfer [0x05] 2])

/-- Whether an event is a PMIC register write. -/
def isI2cWrite : S1Event → Bool
  | S1Event.i2cWrite _ _ => true
  | _ => false

/-- Whether an event is a PMIC write to register `r`. -/
def writesReg (r : Nat) : S1Event → Bool
  | S1Event.i2cWrite r2 _ => r2 == r
  | _ => false

/-- The number of bytes an event transmits over SPI (0 for non-SPI events). -/
def spiTxLen : S1Event → Nat
  | S1Event.spiXfer tx _ => tx.length
  | _ => 0

/-- The register writes a trace issues before its first read of the LDO0 mode
register 0x39: empty iff no write precedes the mode-register read. -/
def writesBeforeModeRead (t : S1Trace) : S1Trace :=
  (t.takeWhile (fun e => e != S1Event.i2cRead 0x39)).filter isI2cWrite

/-- Hardware oracle whose PMIC registers all read 0 (LDO0 not in load-switch
mode) and whose SPI responses are all 0. -/
def hwClear : Hw :=
  { pmicReg := fun _ => 0x00, spiResp := fun _ _ => 0x00 }

/-- Hardware oracle whose PMIC registers all read 0x08, i.e. LDO0 reports
load-switch mode (bit 3 set). -/
def hwLsw : Hw :=
  { pmicReg := fun _ => 0x08, spiResp := fun _ _ => 0x00 }

/-- Hardware oracle whose flash answers every SPI read with byte 0x16 in
position 3 and 0 elsewhere: the expected capacity identifier. -/
def hwCap : Hw :=
  { pmicReg := fun _ => 0x00, spiResp := fun _ i => if i = 3 then 0x16 else 0x00 }

/-- Hardware oracle whose flash answers every SPI read byte with 0x01: the
status register reports busy. -/
def hwBusy : Hw :=
  { pmicReg := fun _ => 0x00, spiResp := fun _ _ => 0x01 }

/-- Claim C1: for `set_fpga_core_power(false)` (`s1_pimc_fpga_vcore` with
`enable = false`), the I/O-rail shutdown write (register 0x39 := 0x0C) is
issued strictly before the core-rail disable write (register 0x2C): the
subtrace of events touching registers 0x39 and 0x2C is exactly the shutdown
write followed by the disable write, so the I/O rail is never left enabled
after the core rail is disabled. -/
theorem vcore_disable_io_before_core :
    (s1_pimc_fpga_vcore false).filter
        (fun e => writesReg 0x39 e || writesReg 0x2C e) =
      [S1Event.i2cWrite 0x39 0x0C, S1Event.i2cWrite 0x2C 0x7C] := rfl

/-- Claim C2: for every voltage above 3.46 V, `s1_pmic_set_vaux` issues no
register write before reading the companion regulator's mode register 0x39
(the writes issued ahead of the first 0x39 read form the empty list), and
whenever bit 3 of the byte that a 0x39 read returns is set, the call returns
`S1_INVALID_SETTING` having issued zero register writes. -/
theorem vaux_mode_check_before_write (hw : Hw) (v : ℚ) (h : v > 3.46) :
    writesBeforeModeRead (s1_pmic_set_vaux hw v).2 = [] ∧
    (pmic_read_reg hw 0x39 &&& 0x08 ≠ 0 →
      (s1_pmic_set_vaux hw v).1 = S1Error.S1_INVALID_SETTING ∧
      (s1_pmic_set_vaux hw v).2.filter isI2cWrite = []) := by
  have hm : modeReadTrace v = [S1Event.i2cRead 0x39] := if_pos h
  by_cases h55 : v < 0.8 ∨ v > 5.5
  · rw [s1_pmic_set_vaux, if_pos h55]
    exact ⟨rfl, fun _ => ⟨rfl, rfl⟩⟩
  · by_cases hb : pmic_read_reg hw 0x39 &&& 0x08 = 0
    · have hc : ¬(v > 3.46 ∧ pmic_read_reg hw 0x39 &&& 0x08 ≠ 0) :=
        fun hcc => hcc.2 hb
      have hv0 : ¬(v = 0.0) := by
        intro h0
        rw [h0] at h
        norm_num at h
      rw [s1_pmic_set_vaux, if_neg h55, if_neg hc, if_neg hv0, hm]
      exact ⟨rfl, fun hbb => absurd hb hbb⟩
    · have hc : v > 3.46 ∧ pmic_read_reg hw 0x39 &&& 0x08 ≠ 0 := ⟨h, hb⟩
      rw [s1_pmic_set_vaux, if_neg h55, if_pos hc, hm]
      exact ⟨rfl, fun _ => ⟨rfl, rfl⟩⟩

/-- Witness for C2: requesting 4 V while the mode register reads 0x08
(load-switch mode) yields `S1_INVALID_SETTING` with no register write, and
no write precedes the mode-register read. -/
theorem vaux_mode_check_before_write_witness :
    writesBeforeModeRead (s1_pmic_set_vaux hwLsw 4).2 = [] ∧
    (s1_pmic_set_vaux hwLsw 4).1 = S1Error.S1_INVALID_SETTING ∧
    (s1_pmic_set_vaux hwLsw 4).2.filter isI2cWrite = [] := by
  have h := vaux_mode_check_before_write hwLsw 4 (by norm_num)
  exact ⟨h.1, h.2 (by decide)⟩

/-- Claim C3 (code bug): the claim says `set_auxiliary_rail(0.0)` and
`set_io_rail(0.0)` succeed with exactly one shutdown write, and the source's
own comments intend 0 V to shut the rail down, but the range check
`voltage < 0.8` rejects 0.0 first, so the shutdown branches are unreachable:
both calls return `S1_INVALID_SETTING` and issue no transaction at all. -/
theorem zero_volt_shutdown_unreachable :
    ∀ hw : Hw,
      s1_pmic_set_vaux hw 0.0 = (S1Error.S1_INVALID_SETTING, []) ∧
      s1_pmic_set_vio 0.0 = (S1Error.S1_INVALID_SETTING, []) := by
  intro hw
  constructor
  · rw [s1_pmic_set_vaux, if_pos (Or.inl (by norm_num : (0.0:ℚ) < 0.8))]
  · rw [s1_pmic_set_vio, if_pos (Or.inl (by norm_num : (0.0:ℚ) < 0.8))]

/-- Claim C4: `s1_flash_wakeup` always issues exactly 4 SPI transactions in
order — the 4-byte wake command 0xAB, the two single-byte reset opcodes 0x66
and 0x99, and the identify transfer sending 0x9F and receiving 4 bytes —
with the 3 µs delay after the wake and the 30 µs delay after the reset pair,
and returns `S1_SUCCESS` iff the 4th received byte equals 0x16, otherwise
the flash-device-mismatch error `S1_FLASH_ERROR`. -/
theorem flash_wakeup_trace_and_result (hw : Hw) :
    (s1_flash_wakeup hw).2 =
      [S1Event.spiXfer [0xAB, 0x00, 0x00, 0x00] 0, S1Event.delayUs 3,
       S1Event.spiXfer [0x66] 0, S1Event.spiXfer [0x99] 0, S1Event.delayUs 30,
       S1Event.spiXfer [0x9F] 4] ∧
    ((s1_flash_wakeup hw).1 = S1Error.S1_SUCCESS ↔ spi_rx hw [0x9F] 3 = 0x16) ∧
    ((s1_flash_wakeup hw).1 = S1Error.S1_FLASH_ERROR ↔ spi_rx hw [0x9F] 3 ≠ 0x16) := by
  by_cases hc : spi_rx hw [0x9F] 3 = 0x16 <;>
    simp [s1_flash_wakeup, hc]

/-- Witness for C4: a flash device answering the identify transfer with byte
0x16 in position 3 makes the wakeup succeed. -/
theorem flash_wakeup_trace_and_result_witness :
    (s1_flash_wakeup hwCap).1 = S1Error.S1_SUCCESS :=
  (flash_wakeup_trace_and_result hwCap).2.1.mpr (by decide)

/-- Counterexample to C5 as stated: at v = 0.88 with the companion regulator
not in load-switch mode, the code writes DAC code 1 (truncation of 1.6) to
register 0x2D, while the claim's formula `round((0.88-0.8)/0.05)` demands 2. -/
theorem vaux_dac_round_counterexample :
    (0.8:ℚ) ≤ 0.88 ∧ (0.88:ℚ) ≤ 5.5 ∧
    pmic_read_reg hwClear 0x39 &&& 0x08 = 0 ∧
    s1_pmic_set_vaux hwClear 0.88 =
      (S1Error.S1_SUCCESS, [S1Event.i2cWrite 0x2D 1, S1Event.i2cWrite 0x2E 0x0E]) ∧
    round (((0.88:ℚ) - 0.8) / 0.05) = 2 := by
  refine ⟨by norm_num, by norm_num, by decide, ?_, by norm_num [round_eq]⟩
  norm_num [s1_pmic_set_vaux, modeReadTrace, vauxSetting, pmic_read_reg, hwClear]

/-- Claim C5 as amended: for every v with 0.8 ≤ v ≤ 5.5, `s1_pmic_set_vaux`
with the companion regulator not in load-switch mode returns success and its
register writes are exactly the voltage-setting write of the 8-bit DAC code
`⌊(v - 0.8)/0.05⌋` (C float-to-uint8_t truncation, not rounding; at most 94,
so within 8 bits without clamping) followed by the control write 0x0E. -/
theorem vaux_in_range_success (hw : Hw) (v : ℚ) (h1 : 0.8 ≤ v) (h2 : v ≤ 5.5)
    (h3 : pmic_read_reg hw 0x39 &&& 0x08 = 0) :
    (s1_pmic_set_vaux hw v).1 = S1Error.S1_SUCCESS ∧
    (s1_pmic_set_vaux hw v).2.filter isI2cWrite =
      [S1Event.i2cWrite 0x2D ((⌊(v - 0.8) / 0.05⌋).toNat),
       S1Event.i2cWrite 0x2E 0x0E] ∧
    (⌊(v - 0.8) / 0.05⌋).toNat ≤ 94 := by
  have h55 : ¬(v < 0.8 ∨ v > 5.5) := by
    push_neg
    exact ⟨h1, h2⟩
  have hc : ¬(v > 3.46 ∧ pmic_read_reg hw 0x39 &&& 0x08 ≠ 0) :=
    fun hcc => hcc.2 h3
  have hv0 : ¬(v = 0.0) := by
    intro h0
    rw [h0] at h1
    norm_num at h1
  have hmf : (modeReadTrace v).filter isI2cWrite = [] := by
    rw [modeReadTrace]
    split <;> rfl
  rw [s1_pmic_set_vaux, if_neg h55, if_neg hc, if_neg hv0]
  refine ⟨rfl, ?_, ?_⟩
  · rw [List.filter_append, hmf, List.nil_append]
    rfl
  · have hle : (v - 0.8) / 0.05 ≤ 94 := by
      rw [div_le_iff₀ (by norm_num : (0:ℚ) < 0.05)]
      linarith
    have hfl : ⌊(v - 0.8) / 0.05⌋ ≤ 94 :=
      calc ⌊(v - 0.8) / 0.05⌋ ≤ ⌊(94:ℚ)⌋ := Int.floor_le_floor hle
      _ = 94 := by norm_num
    exact Int.toNat_le.mpr hfl

/-- Witness for C5 as amended, also the spec's scenario: 4 V on the auxiliary
rail with mode register 0x00 succeeds with DAC code 64 and control 0x0E. -/
theorem vaux_in_range_success_witness :
    (s1_pmic_set_vaux hwClear 4).1 = S1Error.S1_SUCCESS ∧
    (s1_pmic_set_vaux hwClear 4).2.filter isI2cWrite =
      [S1Event.i2cWrite 0x2D 64, S1Event.i2cWrite 0x2E 0x0E] := by
  have h := vaux_in_range_success hwClear 4 (by norm_num) (by norm_num) (by decide)
  refine ⟨h.1, ?_⟩
  rw [h.2.1]
  norm_num
  rfl

/-- Counterexample to C6 as stated: at v = 0.82 the code writes DAC code 0
(truncation of 0.8) to register 0x38, while the claim's formula
`round((0.82-0.8)/0.025)` demands 1. -/
theorem vio_dac_round_counterexample :
    (0.8:ℚ) ≤ 0.82 ∧ (0.82:ℚ) ≤ 3.46 ∧
    s1_pmic_set_vio 0.82 =
      (S1Error.S1_SUCCESS, [S1Event.i2cWrite 0x38 0, S1Event.i2cWrite 0x39 0x0E]) ∧
    round (((0.82:ℚ) - 0.8) / 0.025) = 1 := by
  refine ⟨by norm_num, by norm_num, ?_, by norm_num [round_eq]⟩
  norm_num [s1_pmic_set_vio, vioSetting]

/-- Claim C6 as amended: `s1_pmic_set_vio` returns `S1_INVALID_SETTING` with
no transaction for every voltage outside 0.8..3.46 other than the 0.0
sentinel, and for every voltage within that range it returns success after
writing DAC code `⌊(v - 0.8)/0.025⌋` (C truncation, not rounding) to the
voltage-setting register 0x38 and then the enabling configuration 0x0E
(regulator mode, discharge resistor, enable bit) to the control register
0x39. -/
theorem vio_range_and_dac (v : ℚ) :
    ((v < 0.8 ∨ v > 3.46) → v ≠ 0.0 →
      s1_pmic_set_vio v = (S1Error.S1_INVALID_SETTING, [])) ∧
    (0.8 ≤ v → v ≤ 3.46 →
      s1_pmic_set_vio v =
        (S1Error.S1_SUCCESS,
         [S1Event.i2cWrite 0x38 ((⌊(v - 0.8) / 0.025⌋).toNat),
          S1Event.i2cWrite 0x39 0x0E])) := by
  constructor
  · intro hout _
    rw [s1_pmic_set_vio, if_pos hout]
  · intro h1 h2
    have hout : ¬(v < 0.8 ∨ v > 3.46) := by
      push_neg
      exact ⟨h1, h2⟩
    have hv0 : ¬(v = 0.0) := by
      intro h0
      rw [h0] at h1
      norm_num at h1
    rw [s1_pmic_set_vio, if_neg hout, if_neg hv0, vioSetting]

/-- Witness for C6 as amended: 5 V is rejected with no transaction, and
1.8 V succeeds with DAC code 40 then control 0x0E. -/
theorem vio_range_and_dac_witness :
    s1_pmic_set_vio 5 = (S1Error.S1_INVALID_SETTING, []) ∧
    s1_pmic_set_vio 1.8 =
      (S1Error.S1_SUCCESS,
       [S1Event.i2cWrite 0x38 40, S1Event.i2cWrite 0x39 0x0E]) := by
  constructor
  · exact (vio_range_and_dac 5).1 (Or.inr (by norm_num)) (by norm_num)
  · have h := (vio_range_and_dac 1.8).2 (by norm_num) (by norm_num)
    rw [h]
    norm_num
    rfl

/-- Claim C7: `s1_flash_is_busy` issues exactly one transaction, sending
opcode 0x05 and reading 2 bytes, returns true iff bit 0 of the 2nd received
byte is set, and is idempotent: two calls against hardware giving the same
status response return identical results and traces. -/
theorem flash_is_busy_reads_status (hw hw2 : Hw)
    (h : hw.spiResp [0x05] 1 = hw2.spiResp [0x05] 1) :
    (s1_flash_is_busy hw).2 = [S1Event.spiXfer [0x05] 2] ∧
    ((s1_flash_is_busy hw).1 = true ↔ spi_rx hw [0x05] 1 &&& 0x01 ≠ 0) ∧
    s1_flash_is_busy hw = s1_flash_is_busy hw2 := by
  refine ⟨rfl, ?_, ?_⟩
  · by_cases hz : spi_rx hw [0x05] 1 &&& 0x01 = 0 <;>
      simp [s1_flash_is_busy, hz]
  · rw [s1_flash_is_busy, s1_flash_is_busy, spi_rx, spi_rx, h]

/-- Witness for C7: hardware whose status byte is 0x01 makes the busy poll
return true. -/
theorem flash_is_busy_reads_status_witness :
    (s1_flash_is_busy hwBusy).1 = true :=
  ((flash_is_busy_reads_status hwBusy hwBusy rfl).2.1).mpr (by decide)

/-- Claim C8: `s1_flash_erase_all` issues exactly two SPI transactions, each
transmitting a single byte, in order: opcode 0x06 (write enable) then opcode
0x60 (erase), as separate bus transfers. -/
theorem flash_erase_two_single_byte_transfers :
    s1_flash_erase_all = [S1Event.spiXfer [0x06] 0, S1Event.spiXfer [0x60] 0] ∧
    s1_flash_erase_all.map spiTxLen = [1, 1] := ⟨rfl, rfl⟩

/-- Claim C9: for either boolean argument, the first event `s1_pimc_fpga_vcore`
issues is the write pinning the core rail's voltage register 0x2B to the
1.2 V code 0x08; the function consults no hardware state, so this is also
independent of any prior caller-set value. -/
theorem vcore_first_write_pins_1v2 (enable : Bool) :
    (s1_pimc_fpga_vcore enable).head? = some (S1Event.i2cWrite 0x2B 0x08) := by
  cases enable <;> rfl

/-- Claim C10: `s1_pimc_fpga_vcore true` writes only the core rail's voltage
register 0x2B and control register 0x2C, never touching the I/O rail's
control register 0x39. -/
theorem vcore_enable_leaves_vio_alone :
    s1_pimc_fpga_vcore true =
      [S1Event.i2cWrite 0x2B 0x08, S1Event.i2cWrite 0x2C 0x7E] ∧
    (s1_pimc_fpga_vcore true).filter (writesReg 0x39) = [] := ⟨rfl, rfl⟩
